import Mathlib

/-!
Verification of the `AppointmentForm` component
(`src/Frontend-Patient/src/components/AppointmentForm.jsx`).

The component is embedded shallowly: each piece of React state becomes a
field of a Lean structure, each event handler becomes a pure function from
the incoming value and the current state to the next state, and each
network interaction is modelled by passing its result (success payload or
failure) to the handler that consumes it.  JavaScript `undefined` flowing
into a string-valued state field is modelled by `Option String` (`none` =
`undefined`); all other string state is `String`.
-/

namespace ArogyaMitra

/-- One element of the `data.doctors` array returned by
`GET /api/v1/user/doctors`; only the fields the component reads. -/
structure Doctor where
  firstName : String
  lastName : String
  doctrDptmnt : String
deriving DecidableEq

/-- The thirteen `useState` form fields of `AppointmentForm`
(lines 6-18 of the source).  `doctorLastName` is `Option String` because
the doctor-select handler can store JS `undefined` into it (modelled as
`none`); an ordinary string value `s` is `some s`. -/
structure FormState where
  firstName : String
  lastName : String
  email : String
  phone : String
  aadhar : String
  dob : String
  gender : String
  appointmentDate : String
  department : String
  doctorFirstName : String
  doctorLastName : Option String
  address : String
  hasVisited : Bool
deriving DecidableEq

/-- The initial values passed to `useState`: every string field starts as
`""` and `hasVisited` starts as `false`. -/
def initialFormState : FormState :=
  { firstName := "", lastName := "", email := "", phone := "", aadhar := ""
    dob := "", gender := "", appointmentDate := "", department := ""
    doctorFirstName := "", doctorLastName := some "", address := ""
    hasVisited := false }

/-- The whole component state: the form fields plus the `doctors` and
`departments` arrays (lines 20-21 of the source). -/
structure ComponentState where
  form : FormState
  doctors : List Doctor
  departments : List String
deriving DecidableEq

/-- State on first render: empty form, `doctors = []`, `departments = []`. -/
def initialComponentState : ComponentState :=
  { form := initialFormState, doctors := [], departments := [] }

/-- Character-level splitter realising JavaScript
`String.prototype.split(" ")`: the string is cut at every single space
character, and the empty string splits to `[""]`.  Structural recursion on
the character list so that concrete instances evaluate in the kernel. -/
def splitOnSpaceChars : List Char → List String
  | [] => [""]
  | c :: cs =>
    let rest := splitOnSpaceChars cs
    if c = ' ' then "" :: rest
    else
      match rest with
      | [] => [String.mk [c]]
      | r :: rs => String.mk (c :: r.data) :: rs

/-- JavaScript `value.split(" ")` as used on line 139 of the source. -/
def jsSplitSpace (s : String) : List String :=
  splitOnSpaceChars s.data

/-- The doctor select `onChange` handler (lines 138-142):
`const [fName, lName] = e.target.value.split(" ")` followed by
`setDoctorFirstName(fName); setDoctorLastName(lName)`.  Array
destructuring reads positions 0 and 1; a missing position yields JS
`undefined`, modelled as `none`.  Position 0 always exists because
`split(" ")` never returns an empty array. -/
def doctorSelectOnChange (value : String) (s : FormState) : FormState :=
  let parts := jsSplitSpace value
  { s with doctorFirstName := parts.headD "", doctorLastName := parts[1]? }

/-- The department select `onChange` handler (lines 122-126):
`setDepartment(e.target.value); setDoctorFirstName(""); setDoctorLastName("")`. -/
def departmentSelectOnChange (value : String) (s : FormState) : FormState :=
  { s with department := value, doctorFirstName := "", doctorLastName := some "" }

/-- One insertion step of JavaScript `new Set(...)`: an element already
present is skipped, a new element is appended (sets preserve insertion
order). -/
def jsSetFold (acc : List String) : List String → List String
  | [] => acc
  | x :: xs => jsSetFold (if x ∈ acc then acc else acc ++ [x]) xs

/-- JavaScript `[...new Set(xs)]`: the unique elements of `xs` in order of
first occurrence. -/
def jsSetDedup (xs : List String) : List String :=
  jsSetFold [] xs

/-- Line 33 of the source:
`const uniqueDepts = [...new Set(data.doctors.map(doc => doc.doctrDptmnt))]`. -/
def deriveDepartments (doctors : List Doctor) : List String :=
  jsSetDedup (doctors.map Doctor.doctrDptmnt)

/-- A toast shown to the user: `toast.success` or `toast.error`. -/
inductive Notification where
  | success (msg : String)
  | error (msg : String)
deriving DecidableEq

/-- Outcome of the mount-time `GET /api/v1/user/doctors` request. -/
inductive FetchResult where
  | ok (doctors : List Doctor)
  | err
deriving DecidableEq

/-- Result of running `fetchDoctors`: the next component state and the
toasts emitted while handling the response. -/
structure MountOutcome where
  state : ComponentState
  notifications : List Notification
deriving DecidableEq

/-- The `fetchDoctors` response handling (lines 25-38): on success store
`data.doctors` and the derived unique department list; on failure leave
the state untouched and show one error toast. -/
def fetchDoctorsHandler (r : FetchResult) (s : ComponentState) : MountOutcome :=
  match r with
  | .ok ds =>
      { state := { s with doctors := ds, departments := deriveDepartments ds }
        notifications := [] }
  | .err =>
      { state := s
        notifications := [.error "Failed to load doctors list"] }

/-- The mount effect (lines 23-41): `fetchDoctors` runs once against the
initial component state. -/
def mount (r : FetchResult) : MountOutcome :=
  fetchDoctorsHandler r initialComponentState

/-- JavaScript truthiness test for a string: `!s` is `true` exactly for
the empty string. -/
def jsFalsy (s : String) : Bool :=
  s == ""

/-- The doctor select `disabled={!department}` attribute (line 143). -/
def doctorSelectDisabled (s : ComponentState) : Bool :=
  jsFalsy s.form.department

/-- The doctor options rendered on lines 146-152:
`doctors.filter((doc) => doc.doctrDptmnt === department)`, mapped one to
one onto `<option>` elements in array order. -/
def doctorSelectOptions (s : ComponentState) : List Doctor :=
  s.doctors.filter (fun doc => doc.doctrDptmnt == s.form.department)

/-- The department option values rendered on lines 128-133: the
placeholder `""` followed by one option per derived department. -/
def departmentOptionValues (s : ComponentState) : List String :=
  "" :: s.departments

/-- The JSON body of `POST /api/v1/appointment/post` (lines 48-62).
`appointment_date`, `doctor_firstName` and `doctor_lastName` are the
renamed wire fields; every other key carries the state value of the same
name. -/
structure AppointmentBody where
  firstName : String
  lastName : String
  email : String
  phone : String
  aadhar : String
  dob : String
  gender : String
  appointment_date : String
  department : String
  doctor_firstName : String
  doctor_lastName : Option String
  hasVisited : Bool
  address : String
deriving DecidableEq

/-- Builds the request body from the current form state, exactly as the
object literal on lines 48-62 does. -/
def appointmentBody (s : FormState) : AppointmentBody :=
  { firstName := s.firstName, lastName := s.lastName, email := s.email
    phone := s.phone, aadhar := s.aadhar, dob := s.dob, gender := s.gender
    appointment_date := s.appointmentDate, department := s.department
    doctor_firstName := s.doctorFirstName, doctor_lastName := s.doctorLastName
    hasVisited := s.hasVisited, address := s.address }

/-- The failure information available in the `catch` block (line 84):
`error.response?.data?.message` is `some m` when the server sent a
response body with a `message` field, and `none` otherwise (network
error, missing body, missing field). -/
structure SubmitError where
  responseMessage : Option String
deriving DecidableEq

/-- Outcome of the `POST` request awaited by `handleAppointment`. -/
inductive SubmitResult where
  | ok (message : String)
  | err (e : SubmitError)
deriving DecidableEq

/-- JavaScript `a || b` for the expression on line 84: `b` is used when
`a` is falsy, i.e. `undefined` (`none`) or the empty string. -/
def jsOrElse (a : Option String) (b : String) : String :=
  match a with
  | none => b
  | some s => if s = "" then b else s

/-- Result of one form submission: the next component state, the write
requests issued, and the toasts shown. -/
structure SubmitOutcome where
  state : ComponentState
  requests : List AppointmentBody
  notifications : List Notification
deriving DecidableEq

/-- The `handleAppointment` submit handler (lines 43-86): one `POST` with
the body built from the current form state; on success a success toast
with the server message and every field set back to its initial value; on
failure an error toast with `error.response?.data?.message || "Something
went wrong"` and no state change. -/
def handleAppointment (result : SubmitResult) (s : ComponentState) : SubmitOutcome :=
  match result with
  | .ok message =>
      { state := { s with form := initialFormState }
        requests := [appointmentBody s.form]
        notifications := [.success message] }
  | .err e =>
      { state := s
        requests := [appointmentBody s.form]
        notifications := [.error (jsOrElse e.responseMessage "Something went wrong")] }

/-! ### Helper lemmas about the `Set`-based deduplication -/

theorem jsSetFold_mem (xs : List String) : ∀ (acc : List String) (a : String),
    a ∈ jsSetFold acc xs ↔ a ∈ acc ∨ a ∈ xs := by
  induction xs with
  | nil => intro acc a; simp [jsSetFold]
  | cons x xs ih =>
    intro acc a
    rw [jsSetFold]
    by_cases hx : x ∈ acc
    · rw [if_pos hx, ih]
      simp only [List.mem_cons]
      constructor
      · rintro (h | h)
        · exact Or.inl h
        · exact Or.inr (Or.inr h)
      · rintro (h | h | h)
        · exact Or.inl h
        · exact Or.inl (h.symm ▸ hx)
        · exact Or.inr h
    · rw [if_neg hx, ih]
      simp only [List.mem_append, List.mem_singleton, List.mem_cons]
      tauto

theorem jsSetFold_nodup (xs : List String) : ∀ acc : List String,
    acc.Nodup → (jsSetFold acc xs).Nodup := by
  induction xs with
  | nil => intro acc h; simpa [jsSetFold] using h
  | cons x xs ih =>
    intro acc h
    rw [jsSetFold]
    by_cases hx : x ∈ acc
    · rw [if_pos hx]; exact ih acc h
    · rw [if_neg hx]
      refine ih _ ?_
      simp [List.nodup_append, h, hx]

theorem jsSetDedup_mem (xs : List String) (a : String) :
    a ∈ jsSetDedup xs ↔ a ∈ xs := by
  rw [jsSetDedup, jsSetFold_mem]; simp

theorem jsSetDedup_nodup (xs : List String) : (jsSetDedup xs).Nodup :=
  jsSetFold_nodup xs [] List.nodup_nil

theorem jsSetDedup_length (xs : List String) :
    (jsSetDedup xs).length = xs.toFinset.card := by
  have h1 : (jsSetDedup xs).toFinset = xs.toFinset := by
    ext a; simp [List.mem_toFinset, jsSetDedup_mem]
  rw [← h1, List.toFinset_card_of_nodup (jsSetDedup_nodup xs)]

/-! ### Claims -/

/-- C1 counterexample: the claim says that selecting "Mary Ann Smith"
sets doctorLastName to "Ann Smith" (everything after the first space).
The handler in fact destructures only the first two elements of
`value.split(" ")`, so doctorLastName becomes "Ann". -/
theorem C1_counterexample :
    (doctorSelectOnChange "Mary Ann Smith" initialFormState).doctorLastName = some "Ann" ∧
    (doctorSelectOnChange "Mary Ann Smith" initialFormState).doctorLastName ≠ some "Ann Smith" := by
  decide

/-- C1 (amended): the handler splits the selected option on every space
and keeps only the first two tokens: "Jane Doe" gives
doctorFirstName = "Jane" and doctorLastName = "Doe", while
"Mary Ann Smith" gives doctorFirstName = "Mary" and
doctorLastName = "Ann" (the token after the second space is discarded);
in general doctorFirstName is token 0 and doctorLastName is token 1 of
the space-split option string. -/
theorem C1_doctor_name_split (s : FormState) :
    ((doctorSelectOnChange "Jane Doe" s).doctorFirstName = "Jane" ∧
      (doctorSelectOnChange "Jane Doe" s).doctorLastName = some "Doe") ∧
    ((doctorSelectOnChange "Mary Ann Smith" s).doctorFirstName = "Mary" ∧
      (doctorSelectOnChange "Mary Ann Smith" s).doctorLastName = some "Ann") ∧
    (∀ value : String,
      (doctorSelectOnChange value s).doctorFirstName = (jsSplitSpace value).headD "" ∧
      (doctorSelectOnChange value s).doctorLastName = (jsSplitSpace value)[1]?) :=
  ⟨⟨rfl, rfl⟩, ⟨rfl, rfl⟩, fun _ => ⟨rfl, rfl⟩⟩

/-- C2: changing the department selection to any value sets
FormState.department to that value and unconditionally clears both
doctorFirstName and doctorLastName to the empty string, whatever they
held before. -/
theorem C2_department_change_clears_doctor (value : String) (s : FormState) :
    (departmentSelectOnChange value s).department = value ∧
    (departmentSelectOnChange value s).doctorFirstName = "" ∧
    (departmentSelectOnChange value s).doctorLastName = some "" :=
  ⟨rfl, rfl, rfl⟩

/-- C3: for every fetched doctor list, the department list stored by the
fetch handler is the derived unique list of doctrDptmnt values: it has no
duplicates, its members are exactly the doctrDptmnt values occurring in
the list, and its length is exactly the number of distinct doctrDptmnt
values, so the department selector shows exactly that many options. -/
theorem C3_departments_unique (docs : List Doctor) :
    (fetchDoctorsHandler (.ok docs) initialComponentState).state.departments
      = deriveDepartments docs ∧
    (deriveDepartments docs).Nodup ∧
    (∀ d, d ∈ deriveDepartments docs ↔ d ∈ docs.map Doctor.doctrDptmnt) ∧
    (deriveDepartments docs).length = (docs.map Doctor.doctrDptmnt).toFinset.card := by
  refine ⟨rfl, jsSetDedup_nodup _, fun d => jsSetDedup_mem _ d, jsSetDedup_length _⟩

/-- C4: the doctor selector is disabled exactly when the department field
is the empty string, and its rendered doctor options are a sublist of the
fetched doctor list (fetch order) containing exactly the doctors whose
doctrDptmnt equals the selected department. -/
theorem C4_doctor_selector (s : ComponentState) :
    (doctorSelectDisabled s = true ↔ s.form.department = "") ∧
    (doctorSelectOptions s).Sublist s.doctors ∧
    (∀ doc, doc ∈ doctorSelectOptions s ↔
      doc ∈ s.doctors ∧ doc.doctrDptmnt = s.form.department) := by
  refine ⟨?_, List.filter_sublist s.doctors, fun doc => ?_⟩
  · simp [doctorSelectDisabled, jsFalsy]
  · simp [doctorSelectOptions]

/-- C5: whatever the submission outcome, exactly one write request is
issued and its body carries every FormState field, with appointment_date
taken from appointmentDate, doctor_firstName from doctorFirstName and
doctor_lastName from doctorLastName, and all other fields under their own
names. -/
theorem C5_submit_body (r : SubmitResult) (s : ComponentState) :
    (handleAppointment r s).requests = [appointmentBody s.form] ∧
    (appointmentBody s.form).firstName = s.form.firstName ∧
    (appointmentBody s.form).lastName = s.form.lastName ∧
    (appointmentBody s.form).email = s.form.email ∧
    (appointmentBody s.form).phone = s.form.phone ∧
    (appointmentBody s.form).aadhar = s.form.aadhar ∧
    (appointmentBody s.form).dob = s.form.dob ∧
    (appointmentBody s.form).gender = s.form.gender ∧
    (appointmentBody s.form).appointment_date = s.form.appointmentDate ∧
    (appointmentBody s.form).department = s.form.department ∧
    (appointmentBody s.form).doctor_firstName = s.form.doctorFirstName ∧
    (appointmentBody s.form).doctor_lastName = s.form.doctorLastName ∧
    (appointmentBody s.form).hasVisited = s.form.hasVisited ∧
    (appointmentBody s.form).address = s.form.address := by
  cases r <;>
    exact ⟨rfl, rfl, rfl, rfl, rfl, rfl, rfl, rfl, rfl, rfl, rfl, rfl, rfl, rfl⟩

/-- C6: on a successful submission response with message M, a success
notification with text M is shown and every form field is reset to its
initial value: all string fields to the empty string and hasVisited to
false, including the department and doctor selector values. -/
theorem C6_success_reset (s : ComponentState) (M : String) :
    (handleAppointment (.ok M) s).notifications = [.success M] ∧
    (handleAppointment (.ok M) s).state.form = initialFormState ∧
    initialFormState.firstName = "" ∧
    initialFormState.lastName = "" ∧
    initialFormState.email = "" ∧
    initialFormState.phone = "" ∧
    initialFormState.aadhar = "" ∧
    initialFormState.dob = "" ∧
    initialFormState.gender = "" ∧
    initialFormState.appointmentDate = "" ∧
    initialFormState.department = "" ∧
    initialFormState.doctorFirstName = "" ∧
    initialFormState.doctorLastName = some "" ∧
    initialFormState.address = "" ∧
    initialFormState.hasVisited = false :=
  ⟨rfl, rfl, rfl, rfl, rfl, rfl, rfl, rfl, rfl, rfl, rfl, rfl, rfl, rfl, rfl⟩

/-- C7 counterexample: the claim says the server-provided message is
shown whenever the error response carries one.  When the response carries
the empty-string message, the handler shows the generic fallback instead,
because line 84 uses the falsiness-based operator on the message. -/
theorem C7_counterexample :
    (handleAppointment (.err ⟨some ""⟩) initialComponentState).notifications
      = [.error "Something went wrong"] ∧
    (handleAppointment (.err ⟨some ""⟩) initialComponentState).notifications
      ≠ [.error ""] := by
  decide

/-- C7 (amended): on a failed submission the component state is left
exactly as it was, and one error notification is shown: with the
server-provided message when the error response carries a non-empty
message, and with the generic fallback text when the message is absent or
empty. -/
theorem C7_failure_notification (s : ComponentState) (e : SubmitError) :
    (handleAppointment (.err e) s).state = s ∧
    (∀ m, e.responseMessage = some m → m ≠ "" →
      (handleAppointment (.err e) s).notifications = [.error m]) ∧
    (e.responseMessage = none ∨ e.responseMessage = some "" →
      (handleAppointment (.err e) s).notifications
        = [.error "Something went wrong"]) := by
  refine ⟨rfl, fun m hm hne => ?_, fun h => ?_⟩
  · simp [handleAppointment, jsOrElse, hm, hne]
  · rcases h with h | h <;> simp [handleAppointment, jsOrElse, h]

/-- C7 witness: instantiating the amended theorem at a concrete error
response carrying the message "oops". -/
theorem C7_failure_notification_witness :
    (handleAppointment (.err ⟨some "oops"⟩) initialComponentState).state
      = initialComponentState ∧
    (handleAppointment (.err ⟨some "oops"⟩) initialComponentState).notifications
      = [.error "oops"] :=
  ⟨(C7_failure_notification initialComponentState ⟨some "oops"⟩).1,
    (C7_failure_notification initialComponentState ⟨some "oops"⟩).2.1 "oops" rfl
      (by decide)⟩

/-- C8: when the mount-time doctor-list fetch fails, exactly one error
notification is shown, the doctor list and the derived department list
stay empty, the doctor selector is disabled and remains disabled after
selecting any of the department options still rendered (only the
placeholder), and the form stays interactive: a submission still issues
its one write request. -/
theorem C8_fetch_failure :
    (mount .err).notifications = [.error "Failed to load doctors list"] ∧
    (mount .err).notifications.length = 1 ∧
    (mount .err).state.doctors = [] ∧
    (mount .err).state.departments = [] ∧
    doctorSelectDisabled (mount .err).state = true ∧
    (∀ v, v ∈ departmentOptionValues (mount .err).state →
      doctorSelectDisabled
        { (mount .err).state with
          form := departmentSelectOnChange v (mount .err).state.form } = true) ∧
    (∀ r, (handleAppointment r (mount .err).state).requests
      = [appointmentBody (mount .err).state.form]) := by
  refine ⟨rfl, rfl, rfl, rfl, rfl, fun v hv => ?_, fun r => ?_⟩
  · have hv' : v = "" := by simpa [departmentOptionValues, mount,
      fetchDoctorsHandler, initialComponentState] using hv
    subst hv'
    rfl
  · cases r <;> rfl

/-- C8 witness: instantiating the fetch-failure theorem at the
placeholder department option and at a concrete submission outcome. -/
theorem C8_fetch_failure_witness :
    doctorSelectDisabled
      { (mount .err).state with
        form := departmentSelectOnChange "" (mount .err).state.form } = true ∧
    (handleAppointment (.ok "done") (mount .err).state).requests
      = [appointmentBody (mount .err).state.form] :=
  ⟨C8_fetch_failure.2.2.2.2.2.1 "" (by decide),
    C8_fetch_failure.2.2.2.2.2.2 (.ok "done")⟩

/-- C9: selecting the placeholder doctor option, whose value is the empty
string, sets doctorFirstName to the empty string but stores JS undefined
(modelled as none) in doctorLastName rather than the empty string,
because the empty string splits to a one-element array and the second
destructured name is undefined. -/
theorem C9_placeholder_undefined (s : FormState) :
    (doctorSelectOnChange "" s).doctorFirstName = "" ∧
    (doctorSelectOnChange "" s).doctorLastName = none ∧
    (doctorSelectOnChange "" s).doctorLastName ≠ some "" := by
  refine ⟨rfl, rfl, ?_⟩
  rw [show (doctorSelectOnChange "" s).doctorLastName = none from rfl]
  simp

/-- C10: a successful submission resets only the form fields: the fetched
doctors list and the derived departments list are left unchanged by the
handler. -/
theorem C10_success_preserves_lists (s : ComponentState) (M : String) :
    (handleAppointment (.ok M) s).state.doctors = s.doctors ∧
    (handleAppointment (.ok M) s).state.departments = s.departments :=
  ⟨rfl, rfl⟩

end ArogyaMitra
